import Mathlib

/-!
Shallow embedding of the WhatsApp multi-account manager
(`src/utils/whatsappManager.js`) and of the webhook routes of the HTTP
layer (`src/index.js`), together with proofs about the claims of the
specification.

Conventions:
* JavaScript strings become `String`, arrays become `List`, `Map`s become
  insertion-ordered association lists (a JS `Map` iterates its keys in
  insertion order, which the code relies on for "evict oldest" and for
  prefix-scanning cache invalidation).
* Exceptions become `Except` / explicit error constructors.
* Asynchronous completion of a transport call is modelled by passing the
  outcome of the call (`sendOk : Bool`, or an `HttpOutcome` per webhook)
  as an explicit parameter.
-/

namespace WebMgr

/-! ## PhoneNumberNormalizer (`formatPhoneNumber`, whatsappManager.js lines 593-608)

```js
formatPhoneNumber(number) {
  let cleaned = number.replace(/[^\d]/g, '');
  if (!/^\d{10,}$/.test(cleaned)) {
    cleaned = '91' + cleaned;
  }
  cleaned = cleaned.replace(/^0+/, '');
  return cleaned + '@c.us';
}
```
`cleaned` consists of digits only, so the regex `/^\d{10,}$/` succeeds on it
exactly when it has at least 10 characters. -/

/-- `number.replace(/[^\d]/g, '')`: keep only digit characters. -/
def cleanedDigits (s : List Char) : List Char := s.filter Char.isDigit

/-- The `if (!/^\d{10,}$/.test(cleaned)) cleaned = '91' + cleaned;` step:
the default country code `91` is prepended when the cleaned digit string has
fewer than 10 digits (on an all-digit string the regex tests exactly its
length). -/
def withCountryCode (s : List Char) : List Char :=
  if 10 ≤ (cleanedDigits s).length then cleanedDigits s
  else '9' :: '1' :: cleanedDigits s

/-- `formatPhoneNumber` on character lists: clean, maybe prefix the country
code, strip leading zeros (`replace(/^0+/, '')`), append the routing suffix
`@c.us`. -/
def formatPhoneNumberL (s : List Char) : List Char :=
  (withCountryCode s).dropWhile (fun c => c == '0') ++ "@c.us".toList

/-- `formatPhoneNumber` of the source, on `String`. -/
def formatPhoneNumber (number : String) : String :=
  String.mk (formatPhoneNumberL number.toList)

/-! ## Cached normalizer (`getFormattedNumber`, whatsappManager.js lines 567-590)

The memoization cache is a JS `Map` keyed by the raw input; modelled as an
insertion-ordered association list (`set` of a fresh key appends at the
back; `keys().next().value` is the oldest = first entry). -/

abbrev NumberCache := List (String × String)

/-- `getFormattedNumber(number)`: return the cached value when present;
otherwise format, evict the oldest entry when the cache holds more than
1000 entries, store and return. -/
def getFormattedNumber (cache : NumberCache) (number : String) :
    String × NumberCache :=
  match cache.lookup number with
  | some v => (v, cache)
  | none =>
    let formatted := formatPhoneNumber number
    let cache' := if 1000 < cache.length then cache.drop 1 else cache
    (formatted, cache' ++ [(number, formatted)])

/-- The states the memoization cache can actually be in: every entry stores
the pure normalization of its key. -/
def NumberCacheInv (cache : NumberCache) : Prop :=
  ∀ p ∈ cache, p.2 = formatPhoneNumber p.1

/-! ## OutboundQueue / `sendMessage` (whatsappManager.js lines 346-436)

```js
const queue = this.messageQueues.get(accountId);
if (queue.length > 20) { throw new Error('Message queue is full. ...'); }
try {
  const client = this.clients.get(accountId);
  if (!client) { throw ... }
  const status = this.accountStatus.get(accountId);
  if (status !== 'ready') { throw ... }
  if (!client.pupPage || client.pupPage._closed) { throw ... }
  const formattedNumber = this.getFormattedNumber(number);
  const queueItem = { number: formattedNumber, message, options, timestamp: Date.now() };
  queue.push(queueItem);
  const result = await client.sendMessage(formattedNumber, message, options);
  const index = queue.findIndex(item => item.number === formattedNumber &&
    item.message === message && item.timestamp === queueItem.timestamp);
  if (index !== -1) queue.splice(index, 1);
  ...
} catch (error) { this.logOutgoingMessage({... status: 'failed' ...}); throw error; }
```
The state of one account, as `sendMessage` reads it. -/

structure QueueItem where
  number : String
  message : String
  timestamp : Nat
deriving DecidableEq, Repr

structure SendState where
  queue : List QueueItem
  hasClient : Bool
  status : String
  pageClosed : Bool
deriving DecidableEq, Repr

inductive SendOutcome where
  /-- `Message queue is full. Please try again later.` -/
  | queueFull
  /-- `WhatsApp client not found for this account` -/
  | clientNotFound
  /-- `WhatsApp client is not ready. Current status: ...` -/
  | notReady
  /-- `WhatsApp client page is closed or not available` -/
  | pageUnavailable
  /-- the transport send rejected; the catch block logs and rethrows -/
  | sendFailed
  | sent
deriving DecidableEq, Repr

/-- `queue.findIndex(p)` followed by `if (index !== -1) queue.splice(index, 1)`:
remove the first element satisfying `p`, if any. -/
def removeFirst (p : α → Bool) : List α → List α
  | [] => []
  | a :: t => if p a then t else a :: removeFirst p t

/-- `sendMessage(accountId, number, message)` on one account's state.
`now` is `Date.now()` at the push; `sendOk` is the outcome of the
TransportClient's blocking `client.sendMessage`. Returns the outcome, the
queue after the call completes, and whether the transport send was invoked.
(The cached `getFormattedNumber` is replaced by the pure
`formatPhoneNumber`, justified by `NumberCacheInv`-preservation.) -/
def sendMessage (st : SendState) (number message : String) (now : Nat)
    (sendOk : Bool) : SendOutcome × List QueueItem × Bool :=
  if 20 < st.queue.length then (.queueFull, st.queue, false)
  else if !st.hasClient then (.clientNotFound, st.queue, false)
  else if st.status ≠ "ready" then (.notReady, st.queue, false)
  else if st.pageClosed then (.pageUnavailable, st.queue, false)
  else
    let formatted := formatPhoneNumber number
    let q1 := st.queue ++ [⟨formatted, message, now⟩]
    if sendOk then
      (.sent,
       removeFirst (fun it =>
         it.number == formatted && it.message == message && it.timestamp == now) q1,
       true)
    else
      (.sendFailed, q1, true)

/-- A ready account with an empty queue: C1's failing input. -/
def c1State : SendState := ⟨[], true, "ready", false⟩

/-- An account at queue depth exactly 20 (the claimed cap), otherwise ready. -/
def c4State : SendState := ⟨List.replicate 20 ⟨"x@c.us", "m", 0⟩, true, "ready", false⟩

/-! ## Webhooks, the secret cache and its mutation routes (index.js)

The Store (`db.*`) is the external collaborator of §6; its webhook table is
modelled as the list of persisted webhook records. -/

structure Webhook where
  id : String
  account_id : String
  url : String
  secret : String
  is_active : Bool
deriving DecidableEq, Repr

abbrev WebhookDb := List Webhook

/-- `db.getWebhooks(accountId)`: the account's webhooks. -/
def dbGetWebhooks (dbw : WebhookDb) (accountId : String) : List Webhook :=
  dbw.filter (fun w => w.account_id == accountId)

/-- `webhookSecretCache` (index.js line 36) is `new Map()`. Each entry is
`(key, cached validity, storedAt)`: the third component is ghost bookkeeping
of the instant (ms) the entry was written — the real `Map` stores no such
field, `Map.prototype.set` ignores the extra TTL argument it is given, and
`get` performs no expiry check. The cached JS value is the matching webhook
object or `false`; its truthiness is the `Bool`. -/
abbrev SecretCache := List (String × Bool × Nat)

/-- `` `webhook_${account_id}_${webhook_secret}` `` (index.js line 286). -/
def mkCacheKey (accountId secret : String) : String :=
  "webhook_" ++ accountId ++ "_" ++ secret

/-- JS `String.prototype.startsWith`. -/
def strStartsWith (s pre : String) : Bool := pre.toList.isPrefixOf s.toList

/-- `Map.prototype.set`: update in place when the key exists, else append
(insertion order preserved). The third argument of the source call
(`300000`) is passed along and ignored, exactly as `Map.set` ignores it;
`now` is the ghost store instant. -/
def mapSet (c : SecretCache) (k : String) (v : Bool) (_ttlIgnored : Nat)
    (now : Nat) : SecretCache :=
  if c.any (fun e => e.1 == k) then
    c.map (fun e => if e.1 == k then (k, v, now) else e)
  else c ++ [(k, v, now)]

/-- `POST /api/webhooks` (index.js lines 173-202): persists the new webhook
record; the secret cache is not touched by this route. -/
def createWebhookHandler (dbw : WebhookDb) (cache : SecretCache)
    (w : Webhook) : WebhookDb × SecretCache :=
  (dbw ++ [w], cache)

/-- `PATCH /api/webhooks/:id/toggle` (index.js lines 204-221): 404 (`none`)
when the webhook is unknown; otherwise flips `is_active`. The secret cache
is not touched by this route. -/
def toggleWebhookHandler (dbw : WebhookDb) (cache : SecretCache)
    (id : String) : Option (WebhookDb × SecretCache) :=
  match dbw.find? (fun w => w.id == id) with
  | none => none
  | some _ =>
    some (dbw.map (fun w => if w.id == id then { w with is_active := !w.is_active } else w),
          cache)

/-- The invalidation loop of the delete route (index.js lines 234-243):
delete every cache key starting with `` `webhook_${accountId}_` ``. -/
def invalidateAccountCache (cache : SecretCache) (accountId : String) :
    SecretCache :=
  cache.filter (fun e => !(strStartsWith e.1 ("webhook_" ++ accountId ++ "_")))

/-- `DELETE /api/webhooks/:id` (index.js lines 223-250): 404 (`none`) when
the webhook is unknown; otherwise deletes the record, then eagerly
invalidates the account's cache entries. -/
def deleteWebhookHandler (dbw : WebhookDb) (cache : SecretCache)
    (id : String) : Option (WebhookDb × SecretCache) :=
  match dbw.find? (fun w => w.id == id) with
  | none => none
  | some existing =>
    some (dbw.filter (fun w => !(w.id == id)),
          invalidateAccountCache cache existing.account_id)

/-- The secret-validation prefix of `POST /api/webhook-reply` (index.js
lines 285-299): consult the cache; on a miss, query the Store for an active
webhook with the presented secret and cache the verdict with a `300000`
"TTL" argument (which `Map.set` drops). `now` is the request instant (ms);
the last component is ghost observability — `some t` when the decision came
from a cache entry stored at instant `t`, `none` on a fresh Store query. -/
def webhookReplyValidate (dbw : WebhookDb) (cache : SecretCache)
    (accountId secret : String) (now : Nat) :
    Bool × SecretCache × Option Nat :=
  match cache.lookup (mkCacheKey accountId secret) with
  | some (v, stored) => (v, cache, some stored)
  | none =>
    ((dbGetWebhooks dbw accountId).any (fun w => w.secret == secret && w.is_active),
     mapSet cache (mkCacheKey accountId secret)
       ((dbGetWebhooks dbw accountId).any (fun w => w.secret == secret && w.is_active))
       300000 now,
     none)

/-! ## Account lifecycle (`createAccount` / `setupEventHandlers` /
`reconnectAccount`, whatsappManager.js lines 16-195 and 651-713) -/

/-- The events that write `accountStatus`: the transport lifecycle events
handled in `setupEventHandlers`, the `client.initialize().catch` callback of
`createAccount`, and the status reset at the start of `reconnectAccount`. -/
inductive LifeEvent where
  | qr
  | readyEv
  | authenticated
  | authFailure
  | disconnectedEv
  /-- `client.initialize().catch(...)` sets status `'failed'` (line 97) -/
  | initError
  /-- `reconnectAccount` sets status `'initializing'` (line 698) -/
  | reconnectStart
deriving DecidableEq, Repr

/-- Each handler writes its event's status unconditionally — no handler
examines the previous status (`authenticated` only logs). -/
def stepStatus (s : String) (e : LifeEvent) : String :=
  match e with
  | .qr => "qr_ready"
  | .readyEv => "ready"
  | .authenticated => s
  | .authFailure => "auth_failed"
  | .disconnectedEv => "disconnected"
  | .initError => "failed"
  | .reconnectStart => "initializing"

/-- The observed status after a sequence of events, starting from the
`'initializing'` written by `createAccount`. -/
def statusAfter (evs : List LifeEvent) : String :=
  evs.foldl stepStatus "initializing"

/-- The five statuses the spec's state graph (§4.1) enumerates. -/
def specStatuses : List String :=
  ["initializing", "qr_ready", "ready", "auth_failed", "disconnected"]

/-- The statuses the code can actually write. -/
def observableStatuses : List String := specStatuses ++ ["failed"]

/-! ## `deleteAccount` (whatsappManager.js lines 629-649)

```js
try {
  const client = this.clients.get(accountId);
  if (client) { await client.destroy(); this.clients.delete(accountId); }
  this.qrCodes.delete(accountId);
  this.accountStatus.delete(accountId);
  await db.deleteAccount(accountId);
  return true;
} catch (error) { console.error('Error deleting account:', error); throw error; }
``` -/

structure Registry where
  /-- account ids holding a live client handle (`this.clients` keys) -/
  clients : List String
  qrCodes : List (String × String)
  statuses : List (String × String)
  /-- persisted account records, by id -/
  dbAccounts : List String
deriving DecidableEq, Repr

/-- All the removals `deleteAccount` performs when nothing throws
(`Map.delete` of an absent key is a no-op, so the client-map erase is
unconditional here). -/
def purgeAccount (st : Registry) (a : String) : Registry :=
  { clients := st.clients.erase a,
    qrCodes := st.qrCodes.filter (fun e => !(e.1 == a)),
    statuses := st.statuses.filter (fun e => !(e.1 == a)),
    dbAccounts := st.dbAccounts.erase a }

/-- `deleteAccount(accountId)`, with `destroyOk` the outcome of
`client.destroy()`. When a client handle exists and destroy rejects, the
rejection hits the catch block before any removal ran: it is logged and
rethrown, leaving every map and the Store record in place. -/
def deleteAccount (st : Registry) (a : String) (destroyOk : Bool) :
    Except String Registry :=
  if st.clients.contains a && !destroyOk then
    .error "destroy failed"
  else
    .ok (purgeAccount st a)

/-! ## WebhookDispatcher (`sendToWebhooks`, whatsappManager.js lines 248-344) -/

/-- The inbound-event payload fields the n8n optimization keeps, plus the
payload parts it drops (media, group name, message id, timestamps...). -/
structure MessagePayload where
  account_id : String
  direction : String
  sender : String
  recipient : String
  message : String
  timestamp : Nat
  type : String
  chat_id : String
  is_group : Bool
  dropped : List (String × String)
deriving DecidableEq, Repr

/-- JS `String.prototype.includes`. -/
def strIncludes (s sub : String) : Bool :=
  (List.range (s.toList.length + 1)).any
    (fun i => sub.toList.isPrefixOf (s.toList.drop i))

/-- `webhook.url.includes('n8n') || webhook.url.includes('nodemation')`. -/
def isN8nUrl (url : String) : Bool :=
  strIncludes url "n8n" || strIncludes url "nodemation"

/-- `const timeout = isN8n ? 5000 : 10000;`. -/
def webhookTimeout (w : Webhook) : Nat := if isN8nUrl w.url then 5000 else 10000

/-- The body posted to a webhook: `optimizePayloadForN8n(messageData)`
(whatsappManager.js lines 315-332) for recognized automation targets, the
full payload otherwise. -/
inductive DeliveredBody where
  | full (m : MessagePayload)
  /-- the reduced schema, `optimized: true` marker implied by the constructor -/
  | optimizedBody (account_id direction sender recipient message : String)
      (timestamp : Nat) (type chat_id : String) (is_group : Bool)
deriving DecidableEq, Repr

def webhookBody (w : Webhook) (m : MessagePayload) : DeliveredBody :=
  if isN8nUrl w.url then
    .optimizedBody m.account_id m.direction m.sender m.recipient m.message
      m.timestamp m.type m.chat_id m.is_group
  else .full m

/-- The settlement of one HTTP POST: a resolved response, or a rejection
(connection error, timeout, or non-2xx status — axios rejects those). -/
inductive HttpOutcome where
  | ok (status : Nat)
  | err (msg : String)
deriving DecidableEq, Repr

structure DeliveryRecord where
  account_id : String
  direction : String
  status : String
  webhook_id : String
  webhook_url : String
  response_status : Option Nat
  error_message : Option String
deriving DecidableEq, Repr

/-- One per-webhook attempt: the async closure in the `.map(...)`. Its own
`try/catch` converts any rejection into a failure record handed to the
non-blocking `logWebhookDelivery`; nothing escapes the closure. -/
def attemptDelivery (accountId : String) (w : Webhook) (o : HttpOutcome) :
    DeliveryRecord :=
  match o with
  | .ok s => ⟨accountId, "webhook", "success", w.id, w.url, some s, none⟩
  | .err m => ⟨accountId, "webhook", "failed", w.id, w.url, none, some m⟩

/-- `sendToWebhooks(accountId, messageData)`: read the account's webhooks
(`webhooksRes` — the outer catch absorbs a Store failure), run one attempt
per active webhook, and `Promise.allSettled` the lot: the call completes
once every attempt has settled, yielding one `DeliveryRecord` per active
webhook. `outcomes` gives each webhook's own HTTP settlement. -/
def sendToWebhooks (accountId : String)
    (webhooksRes : Except String (List Webhook))
    (outcomes : Webhook → HttpOutcome) : List DeliveryRecord :=
  match webhooksRes with
  | .error _ => []
  | .ok ws =>
    (ws.filter (fun w => w.is_active)).map
      (fun w => attemptDelivery accountId w (outcomes w))

end WebMgr

namespace WebMgr

theorem formatPhoneNumber_toList (n : String) :
    (formatPhoneNumber n).toList = formatPhoneNumberL n.toList := rfl

theorem mem_withCountryCode_isDigit (s : List Char) :
    ∀ c ∈ withCountryCode s, c.isDigit := by
  intro c hc
  unfold withCountryCode at hc
  by_cases h : 10 ≤ (cleanedDigits s).length
  · rw [if_pos h] at hc
    exact (List.mem_filter.mp hc).2
  · rw [if_neg h] at hc
    rcases List.mem_cons.mp hc with h9 | hc
    · rw [h9]; decide
    rcases List.mem_cons.mp hc with h1 | hc
    · rw [h1]; decide
    · exact (List.mem_filter.mp hc).2

theorem dropWhile_dropWhile (p : Char → Bool) (l : List Char) :
    (l.dropWhile p).dropWhile p = l.dropWhile p := by
  induction l with
  | nil => rfl
  | cons a t ih =>
    by_cases h : p a
    · simp [List.dropWhile_cons, h, ih]
    · simp [List.dropWhile_cons, h]

/-- Cleaning the output of the normalizer recovers exactly its digit part:
the `@c.us` suffix contributes no digits and everything before it is a digit. -/
theorem cleanedDigits_formatPhoneNumberL (s : List Char) :
    cleanedDigits (formatPhoneNumberL s) =
      (withCountryCode s).dropWhile (fun c => c == '0') := by
  unfold formatPhoneNumberL cleanedDigits
  rw [List.filter_append]
  have h2 : ("@c.us".toList).filter Char.isDigit = [] := by decide
  rw [h2, List.append_nil]
  apply List.filter_eq_self.mpr
  intro a ha
  exact mem_withCountryCode_isDigit s a ((List.dropWhile_sublist _).subset ha)

theorem formatPhoneNumberL_idem (s : List Char)
    (h : 10 ≤ (cleanedDigits (formatPhoneNumberL s)).length) :
    formatPhoneNumberL (formatPhoneNumberL s) = formatPhoneNumberL s := by
  have hclean := cleanedDigits_formatPhoneNumberL s
  have hcc : withCountryCode (formatPhoneNumberL s) =
      (withCountryCode s).dropWhile (fun c => c == '0') := by
    unfold withCountryCode
    rw [if_pos h, hclean]
    rfl
  show (withCountryCode (formatPhoneNumberL s)).dropWhile (fun c => c == '0')
      ++ "@c.us".toList = formatPhoneNumberL s
  rw [hcc, dropWhile_dropWhile]
  rfl

theorem mem_of_lookup_eq_some {β : Type} {l : List (String × β)} {k : String}
    {v : β} (h : l.lookup k = some v) : (k, v) ∈ l := by
  induction l with
  | nil => simp [List.lookup] at h
  | cons p t ih =>
    rcases p with ⟨k', v'⟩
    rw [List.lookup_cons] at h
    cases hbeq : (k == k') with
    | true =>
      rw [hbeq] at h
      simp only [Option.some.injEq] at h
      have hk : k = k' := by simpa using hbeq
      subst hk; subst h
      exact List.mem_cons_self _ _
    | false =>
      rw [hbeq] at h
      exact List.mem_cons_of_mem _ (ih h)

theorem lookup_eq_none_of_forall {β : Type} {l : List (String × β)} {k : String}
    (h : ∀ p ∈ l, p.1 ≠ k) : l.lookup k = none := by
  induction l with
  | nil => rfl
  | cons p t ih =>
    rcases p with ⟨k', v'⟩
    rw [List.lookup_cons]
    have hne : (k == k') = false := by
      simp only [beq_eq_false_iff_ne, ne_eq]
      exact fun he => (h (k', v') (List.mem_cons_self _ _)) he.symm
    rw [hne]
    exact ih fun p hp => h p (List.mem_cons_of_mem _ hp)

/-- C5: the spec claims `formatPhoneNumber "9876543210"` (default country
code 91) and `formatPhoneNumber "+919876543210"` yield the same canonical
routing address. The code's country-code branch fires only when the cleaned
number has fewer than 10 digits, so a 10-digit local number is never
prefixed: the two inputs normalize to different addresses. -/
theorem c5_default_country_code_divergence :
    formatPhoneNumber "9876543210" = "9876543210@c.us" ∧
    formatPhoneNumber "+919876543210" = "919876543210@c.us" ∧
    formatPhoneNumber "9876543210" ≠ formatPhoneNumber "+919876543210" := by
  refine ⟨by decide, by decide, by decide⟩

/-- C6 counterexample: the normalizer is not idempotent on every input.
For `"123"` the first pass yields `"91123@c.us"` (5 digits, country code
added); the second pass sees only 5 digits again and prefixes `91` once
more, yielding `"9191123@c.us"`. -/
theorem c6_not_idempotent_counterexample :
    formatPhoneNumber (formatPhoneNumber "123") ≠ formatPhoneNumber "123" := by
  decide

/-- C6 (amended): the normalizer is idempotent on every input whose
normalized form carries at least 10 digits (equivalently, on every output the
country-code branch no longer fires for): re-normalizing such an output
returns it unchanged. -/
theorem c6_normalizer_idempotent_amended (n : String)
    (h : 10 ≤ (cleanedDigits (formatPhoneNumber n).toList).length) :
    formatPhoneNumber (formatPhoneNumber n) = formatPhoneNumber n := by
  have : formatPhoneNumber (formatPhoneNumber n)
      = String.mk (formatPhoneNumberL (formatPhoneNumberL n.toList)) := rfl
  rw [this]
  exact congrArg String.mk (formatPhoneNumberL_idem n.toList h)

/-- Witness for C6 (amended) at the concrete input `"+919876543210"`. -/
theorem c6_normalizer_idempotent_amended_witness :
    10 ≤ (cleanedDigits (formatPhoneNumber "+919876543210").toList).length ∧
    formatPhoneNumber (formatPhoneNumber "+919876543210")
      = formatPhoneNumber "+919876543210" :=
  ⟨by decide, c6_normalizer_idempotent_amended "+919876543210" (by decide)⟩

/-- C10: on every state the memoization cache can be in (every entry stores
the pure normalization of its key — true initially and preserved by every
call), `getFormattedNumber` returns exactly `formatPhoneNumber` of its input
and re-establishes that invariant: the memoized path is observationally
equivalent to the uncached pure function. -/
theorem c10_cached_normalizer_refines_pure (cache : NumberCache) (n : String)
    (h : NumberCacheInv cache) :
    (getFormattedNumber cache n).1 = formatPhoneNumber n ∧
      NumberCacheInv (getFormattedNumber cache n).2 := by
  unfold getFormattedNumber
  cases hlook : cache.lookup n with
  | some v =>
    exact ⟨h _ (mem_of_lookup_eq_some hlook), h⟩
  | none =>
    refine ⟨rfl, ?_⟩
    intro p hp
    rcases List.mem_append.mp hp with hp | hp
    · by_cases hlen : 1000 < cache.length
      · rw [if_pos hlen] at hp
        exact h p (List.drop_subset 1 cache hp)
      · rw [if_neg hlen] at hp
        exact h p hp
    · rw [List.mem_singleton.mp hp]

/-- Witness for C10 at the empty cache and input `"123"`. -/
theorem c10_cached_normalizer_refines_pure_witness :
    (getFormattedNumber [] "123").1 = formatPhoneNumber "123" ∧
      NumberCacheInv (getFormattedNumber [] "123").2 :=
  c10_cached_normalizer_refines_pure [] "123" (by intro p hp; simp at hp)

/-- C1: for a ready account within the cap, the spec claims the admitted
queue item is removed again on completion of the transport send, success or
failure. The code removes it only on the success path; when
`client.sendMessage` rejects, the catch block logs and rethrows without
touching the queue, so the entry leaks: starting from depth 0, a failed send
leaves depth 1 (a successful send correctly restores depth 0). -/
theorem c1_failed_send_leaves_queue_entry :
    (sendMessage c1State "9876543210" "hi" 0 false).1 = .sendFailed ∧
    (sendMessage c1State "9876543210" "hi" 0 false).2.1.length
      = c1State.queue.length + 1 ∧
    (sendMessage c1State "9876543210" "hi" 0 true).2.1.length
      = c1State.queue.length := by
  decide

/-- C4 counterexample: at queue depth exactly 20 (the claimed cap) the send
is admitted, not rejected: the guard is `queue.length > 20`, so the call
returns `sent` and the TransportClient's send IS invoked. -/
theorem c4_depth_twenty_admitted_counterexample :
    c4State.queue.length = 20 ∧
    (sendMessage c4State "9876543210" "hi" 1 true).1 = .sent ∧
    (sendMessage c4State "9876543210" "hi" 1 true).2.2 = true := by
  decide

/-- C4 (amended): the send fails with `QueueFull` — without invoking the
TransportClient and leaving the queue unchanged — exactly when the account's
current queue depth exceeds the cap of 20 (depth ≥ 21); at depth 20 the item
is still admitted. -/
theorem c4_queue_full_amended (st : SendState) (number message : String)
    (now : Nat) (sendOk : Bool) (h : 20 < st.queue.length) :
    (sendMessage st number message now sendOk).1 = .queueFull ∧
    (sendMessage st number message now sendOk).2.2 = false ∧
    (sendMessage st number message now sendOk).2.1 = st.queue := by
  unfold sendMessage
  rw [if_pos h]
  exact ⟨rfl, rfl, rfl⟩

/-- Every cache key scoped to an account starts with the prefix the delete
route scans for. -/
theorem strStartsWith_mkCacheKey (a s : String) :
    strStartsWith (mkCacheKey a s) ("webhook_" ++ a ++ "_") = true := by
  unfold strStartsWith mkCacheKey
  rw [List.isPrefixOf_iff_prefix]
  exact List.prefix_append _ _

/-- After the delete route's invalidation loop, no cache entry scoped to the
account remains. -/
theorem lookup_invalidateAccountCache (cache : SecretCache) (a s : String) :
    (invalidateAccountCache cache a).lookup (mkCacheKey a s) = none := by
  apply lookup_eq_none_of_forall
  intro p hp hkey
  unfold invalidateAccountCache at hp
  have h1 : (!(strStartsWith p.1 ("webhook_" ++ a ++ "_"))) = true :=
    (List.mem_filter.mp hp).2
  rw [hkey, strStartsWith_mkCacheKey] at h1
  simp at h1

/-- C2 counterexample: the create mutation does not invalidate the cache.
With a negative verdict for `(account "a", secret "s")` cached, creating an
active webhook for account `"a"` with secret `"s"` leaves that entry in
place, and the very next webhook-reply validation for `("a", "s")` still
fails — the claim that after every mutation the cache holds no entry for the
account is false (the same holds for the toggle route; only the delete route
invalidates). -/
theorem c2_create_mutation_counterexample :
    ((createWebhookHandler [] [(mkCacheKey "a" "s", false, 0)]
        ⟨"wh1", "a", "https://example.com/hook", "s", true⟩).2).lookup
      (mkCacheKey "a" "s") = some (false, 0) ∧
    (webhookReplyValidate
        (createWebhookHandler [] [(mkCacheKey "a" "s", false, 0)]
          ⟨"wh1", "a", "https://example.com/hook", "s", true⟩).1
        (createWebhookHandler [] [(mkCacheKey "a" "s", false, 0)]
          ⟨"wh1", "a", "https://example.com/hook", "s", true⟩).2
        "a" "s" 1).1 = false := by
  decide

/-- C2 (amended): only the delete mutation invalidates eagerly. The create
and toggle routes leave the secret cache untouched; the delete route removes
every cache entry keyed to the deleted webhook's account, and — provided no
other still-active webhook of that account carries the same secret — the
deleted webhook's secret fails validation on the very next webhook-reply
request. -/
theorem c2_webhook_mutation_cache_amended (dbw : WebhookDb)
    (cache : SecretCache) (w : Webhook) (now : Nat)
    (hfind : dbw.find? (fun x => x.id == w.id) = some w)
    (huniq : ∀ w' ∈ dbw, w'.account_id = w.account_id → w'.is_active = true →
      w'.secret = w.secret → w'.id = w.id) :
    (∀ dbw₀ cache₀ w₀, (createWebhookHandler dbw₀ cache₀ w₀).2 = cache₀) ∧
    (∀ dbw₀ cache₀ i r, toggleWebhookHandler dbw₀ cache₀ i = some r →
      r.2 = cache₀) ∧
    deleteWebhookHandler dbw cache w.id
      = some (dbw.filter (fun x => !(x.id == w.id)),
              invalidateAccountCache cache w.account_id) ∧
    (∀ s, (invalidateAccountCache cache w.account_id).lookup
        (mkCacheKey w.account_id s) = none) ∧
    (webhookReplyValidate (dbw.filter (fun x => !(x.id == w.id)))
        (invalidateAccountCache cache w.account_id)
        w.account_id w.secret now).1 = false := by
  refine ⟨fun _ _ _ => rfl, ?_, ?_, ?_, ?_⟩
  · intro dbw₀ cache₀ i r h
    unfold toggleWebhookHandler at h
    cases hf : dbw₀.find? (fun x => x.id == i) with
    | none => rw [hf] at h; exact absurd h (by simp)
    | some x => rw [hf] at h; injection h with h; rw [← h]
  · unfold deleteWebhookHandler
    rw [hfind]
  · exact fun s => lookup_invalidateAccountCache cache w.account_id s
  · unfold webhookReplyValidate
    rw [lookup_invalidateAccountCache cache w.account_id w.secret]
    show (dbGetWebhooks (dbw.filter (fun x => !(x.id == w.id)))
        w.account_id).any (fun w' => w'.secret == w.secret && w'.is_active)
      = false
    rw [List.any_eq_false]
    intro x hx hpx
    unfold dbGetWebhooks at hx
    have hx1 := List.mem_filter.mp hx
    have hx2 := List.mem_filter.mp hx1.1
    have hacct : x.account_id = w.account_id := by simpa using hx1.2
    have hboth := Bool.and_eq_true_iff.mp hpx
    have hsec : x.secret = w.secret := by simpa using hboth.1
    have hid : x.id = w.id := huniq x hx2.1 hacct hboth.2 hsec
    have hnid : (!(x.id == w.id)) = true := hx2.2
    rw [hid] at hnid
    simp at hnid

/-- Witness for C2 (amended): one account `"a"` with a single active webhook
`"wh1"` of secret `"s"`, whose secret is cached as valid; deleting `"wh1"`
purges the cache and the immediately following reply request is rejected. -/
theorem c2_webhook_mutation_cache_amended_witness :
    deleteWebhookHandler [⟨"wh1", "a", "https://example.com/hook", "s", true⟩]
        [(mkCacheKey "a" "s", true, 0)] "wh1"
      = some ([], invalidateAccountCache [(mkCacheKey "a" "s", true, 0)] "a") ∧
    (webhookReplyValidate []
        (invalidateAccountCache [(mkCacheKey "a" "s", true, 0)] "a")
        "a" "s" 7).1 = false := by
  have h := c2_webhook_mutation_cache_amended
    [⟨"wh1", "a", "https://example.com/hook", "s", true⟩]
    [(mkCacheKey "a" "s", true, 0)]
    ⟨"wh1", "a", "https://example.com/hook", "s", true⟩ 7
    (by decide) (by decide)
  exact ⟨h.2.2.1, h.2.2.2.2⟩

/-- C3: the spec claims every cache entry is time-bounded to five minutes.
`webhookSecretCache` is a plain JS `Map`; the `300000` third argument of
`set` is silently ignored and `get` checks no expiry, so a verdict stored at
instant 0 still decides a request at instant 360000 (six minutes later,
before the hourly full clear at 3600000): the code contradicts its own
`5-minute TTL` comments. -/
theorem c3_cache_entry_used_after_five_minutes :
    (webhookReplyValidate [⟨"wh1", "acct", "https://example.com/h", "sek", true⟩]
        [] "acct" "sek" 0).2.1
      = [(mkCacheKey "acct" "sek", true, 0)] ∧
    (webhookReplyValidate [⟨"wh1", "acct", "https://example.com/h", "sek", true⟩]
        [(mkCacheKey "acct" "sek", true, 0)] "acct" "sek" 360000).1 = true ∧
    (webhookReplyValidate [⟨"wh1", "acct", "https://example.com/h", "sek", true⟩]
        [(mkCacheKey "acct" "sek", true, 0)] "acct" "sek" 360000).2.2
      = some 0 ∧
    300000 < 360000 ∧ 360000 < 3600000 := by
  decide

/-- C7 counterexample: when `client.initialize()` rejects, the catch callback
writes status `'failed'`, which is outside the five statuses the claim
enumerates; moreover the handlers are state-oblivious, so a late `qr` event
moves a `ready` account back to `qr_ready`, a transition outside the claimed
graph. -/
theorem c7_failed_status_counterexample :
    statusAfter [LifeEvent.initError] = "failed" ∧
    statusAfter [LifeEvent.initError] ∉ specStatuses ∧
    statusAfter [LifeEvent.readyEv] = "ready" ∧
    statusAfter [LifeEvent.readyEv, LifeEvent.qr] = "qr_ready" := by
  decide

/-- C7 (amended): the observed status is always one of `initializing`,
`qr_ready`, `ready`, `auth_failed`, `disconnected` or `failed` (the last
entered when client initialization errors); every handler writes its event's
status unconditionally — no handler but the log-only `authenticated` reads
the previous state, so the §4.1 graph is enforced only insofar as the
transport emits events in that order. -/
theorem c7_lifecycle_amended :
    (∀ evs, statusAfter evs ∈ observableStatuses) ∧
    (∀ s s' e, e ≠ LifeEvent.authenticated → stepStatus s e = stepStatus s' e) := by
  constructor
  · have key : ∀ (evs : List LifeEvent) (s : String), s ∈ observableStatuses →
        evs.foldl stepStatus s ∈ observableStatuses := by
      intro evs
      induction evs with
      | nil => intro s hs; exact hs
      | cons e t ih =>
        intro s hs
        apply ih
        cases e with
        | authenticated => exact hs
        | qr => exact (by decide : "qr_ready" ∈ observableStatuses)
        | readyEv => exact (by decide : "ready" ∈ observableStatuses)
        | authFailure => exact (by decide : "auth_failed" ∈ observableStatuses)
        | disconnectedEv => exact (by decide : "disconnected" ∈ observableStatuses)
        | initError => exact (by decide : "failed" ∈ observableStatuses)
        | reconnectStart => exact (by decide : "initializing" ∈ observableStatuses)
    exact fun evs => key evs "initializing" (by decide)
  · intro s s' e he
    cases e with
    | authenticated => exact absurd rfl he
    | qr => rfl
    | readyEv => rfl
    | authFailure => rfl
    | disconnectedEv => rfl
    | initError => rfl
    | reconnectStart => rfl

/-- Witness for C7 (amended) at a concrete trace and a concrete
state-obliviousness instance. -/
theorem c7_lifecycle_amended_witness :
    statusAfter [LifeEvent.qr, LifeEvent.readyEv, LifeEvent.initError]
      ∈ observableStatuses ∧
    stepStatus "ready" LifeEvent.qr = stepStatus "disconnected" LifeEvent.qr :=
  ⟨c7_lifecycle_amended.1 [LifeEvent.qr, LifeEvent.readyEv, LifeEvent.initError],
   c7_lifecycle_amended.2 "ready" "disconnected" LifeEvent.qr (by decide)⟩

/-- C8 counterexample: with a live client for account `"a"` whose
`destroy()` rejects, `deleteAccount` rethrows the failure instead of
absorbing it, and neither the in-memory handle removal nor the deletion of
the persisted record takes place (no new registry state is produced). -/
theorem c8_destroy_failure_propagates_counterexample :
    deleteAccount ⟨["a"], [("a", "qr")], [("a", "ready")], ["a"]⟩ "a" false
      = Except.error "destroy failed" ∧
    deleteAccount ⟨["a"], [("a", "qr")], [("a", "ready")], ["a"]⟩ "a" false
      ≠ Except.ok (purgeAccount ⟨["a"], [("a", "qr")], [("a", "ready")], ["a"]⟩ "a") := by
  refine ⟨rfl, ?_⟩
  intro h
  rw [show deleteAccount ⟨["a"], [("a", "qr")], [("a", "ready")], ["a"]⟩ "a" false
      = Except.error "destroy failed" from rfl] at h
  exact Except.noConfusion h

/-- C8 (amended): teardown is not best-effort. When a client handle exists
and `destroy()` fails, the failure is logged and rethrown to the caller and
no removal happens; only when destroy succeeds (or no handle exists) are the
in-memory maps purged and the persisted record deleted. -/
theorem c8_delete_account_amended (st : Registry) (a : String) :
    (st.clients.contains a = true →
      deleteAccount st a false = Except.error "destroy failed") ∧
    deleteAccount st a true = Except.ok (purgeAccount st a) ∧
    (st.clients.contains a = false →
      deleteAccount st a false = Except.ok (purgeAccount st a)) ∧
    (purgeAccount st a).statuses.lookup a = none ∧
    (purgeAccount st a).qrCodes.lookup a = none := by
  refine ⟨?_, ?_, ?_, ?_, ?_⟩
  · intro h
    unfold deleteAccount
    rw [h]
    rfl
  · unfold deleteAccount
    rw [Bool.not_true, Bool.and_false]
    rfl
  · intro h
    unfold deleteAccount
    rw [h]
    rfl
  · exact lookup_eq_none_of_forall (fun p hp => by
      unfold purgeAccount at hp
      have h1 : (!(p.1 == a)) = true := (List.mem_filter.mp hp).2
      simpa using h1)
  · exact lookup_eq_none_of_forall (fun p hp => by
      unfold purgeAccount at hp
      have h1 : (!(p.1 == a)) = true := (List.mem_filter.mp hp).2
      simpa using h1)

/-- Witness for C8 (amended) at a concrete registry holding account `"a"`. -/
theorem c8_delete_account_amended_witness :
    deleteAccount ⟨["a"], [("a", "qr")], [("a", "ready")], ["a"]⟩ "a" false
      = Except.error "destroy failed" ∧
    deleteAccount ⟨["a"], [("a", "qr")], [("a", "ready")], ["a"]⟩ "a" true
      = Except.ok (purgeAccount ⟨["a"], [("a", "qr")], [("a", "ready")], ["a"]⟩ "a") :=
  ⟨(c8_delete_account_amended ⟨["a"], [("a", "qr")], [("a", "ready")], ["a"]⟩ "a").1
      (by decide),
   (c8_delete_account_amended ⟨["a"], [("a", "qr")], [("a", "ready")], ["a"]⟩ "a").2.1⟩

/-- C9: the dispatch completes exactly when every per-webhook attempt has
settled — one `DeliveryRecord` per active webhook, in order; an individual
HTTP error, timeout or non-2xx rejection becomes a `failed` record and never
escapes (`sendToWebhooks` is a total function into records — even a Store
read failure yields `[]`, not an exception); and each webhook's record is a
function of that webhook and its own outcome alone, so no webhook's failure
or slowness can change — block or cancel — another's attempt. -/
theorem c9_dispatch_settles_all (a : String) (ws : List Webhook)
    (f g : Webhook → HttpOutcome) :
    (sendToWebhooks a (Except.ok ws) f).length
      = (ws.filter (fun w => w.is_active)).length ∧
    (∀ w m, attemptDelivery a w (HttpOutcome.err m)
      = ⟨a, "webhook", "failed", w.id, w.url, none, some m⟩) ∧
    (∀ e, sendToWebhooks a (Except.error e) f = []) ∧
    (∀ i : Nat, (sendToWebhooks a (Except.ok ws) f)[i]?
      = ((ws.filter (fun w => w.is_active))[i]?).map
          (fun w => attemptDelivery a w (f w))) ∧
    ((∀ w ∈ ws.filter (fun w => w.is_active), f w = g w) →
      sendToWebhooks a (Except.ok ws) f = sendToWebhooks a (Except.ok ws) g) := by
  refine ⟨List.length_map _ _, fun w m => rfl, fun e => rfl, ?_, ?_⟩
  · intro i
    show ((ws.filter (fun w => w.is_active)).map
        (fun w => attemptDelivery a w (f w)))[i]? = _
    rw [List.getElem?_map]
  · intro hfg
    show (ws.filter (fun w => w.is_active)).map (fun w => attemptDelivery a w (f w))
      = (ws.filter (fun w => w.is_active)).map (fun w => attemptDelivery a w (g w))
    exact List.map_congr_left (fun w hw => by rw [hfg w hw])

/-- Witness for C9 at a concrete dispatch: three active webhooks of which
one times out, plus an inactive fourth whose (hypothetical) outcome differs
between the two outcome assignments; the dispatch settles all three active
attempts, turns the timeout into a `failed` record, and is unchanged by the
inactive webhook's differing outcome. -/
theorem c9_dispatch_settles_all_witness :
    (sendToWebhooks "a"
        (Except.ok [⟨"w1", "a", "https://x.example/1", "s1", true⟩,
                    ⟨"w2", "a", "https://y.example/n8n/2", "s2", true⟩,
                    ⟨"w3", "a", "https://z.example/3", "s3", true⟩,
                    ⟨"w4", "a", "https://q.example/4", "s4", false⟩])
        (fun w => if w.id == "w2" then HttpOutcome.err "timeout of 5000ms exceeded"
                  else HttpOutcome.ok 200)).length
      = ([⟨"w1", "a", "https://x.example/1", "s1", true⟩,
          ⟨"w2", "a", "https://y.example/n8n/2", "s2", true⟩,
          ⟨"w3", "a", "https://z.example/3", "s3", true⟩,
          ⟨"w4", "a", "https://q.example/4", "s4", false⟩].filter
            (fun w : Webhook => w.is_active)).length ∧
    attemptDelivery "a" ⟨"w2", "a", "https://y.example/n8n/2", "s2", true⟩
        (HttpOutcome.err "timeout of 5000ms exceeded")
      = ⟨"a", "webhook", "failed", "w2", "https://y.example/n8n/2", none,
         some "timeout of 5000ms exceeded"⟩ ∧
    sendToWebhooks "a"
        (Except.ok [⟨"w1", "a", "https://x.example/1", "s1", true⟩,
                    ⟨"w2", "a", "https://y.example/n8n/2", "s2", true⟩,
                    ⟨"w3", "a", "https://z.example/3", "s3", true⟩,
                    ⟨"w4", "a", "https://q.example/4", "s4", false⟩])
        (fun w => if w.id == "w2" then HttpOutcome.err "timeout of 5000ms exceeded"
                  else HttpOutcome.ok 200)
      = sendToWebhooks "a"
        (Except.ok [⟨"w1", "a", "https://x.example/1", "s1", true⟩,
                    ⟨"w2", "a", "https://y.example/n8n/2", "s2", true⟩,
                    ⟨"w3", "a", "https://z.example/3", "s3", true⟩,
                    ⟨"w4", "a", "https://q.example/4", "s4", false⟩])
        (fun w => if w.id == "w2" then HttpOutcome.err "timeout of 5000ms exceeded"
                  else if w.id == "w4" then HttpOutcome.err "never attempted"
                  else HttpOutcome.ok 200) :=
  ⟨(c9_dispatch_settles_all "a" _
      (fun w => if w.id == "w2" then HttpOutcome.err "timeout of 5000ms exceeded"
                else HttpOutcome.ok 200)
      (fun _ => HttpOutcome.ok 200)).1,
   (c9_dispatch_settles_all "a" []
      (fun _ => HttpOutcome.ok 200) (fun _ => HttpOutcome.ok 200)).2.1 _ _,
   (c9_dispatch_settles_all "a"
      [⟨"w1", "a", "https://x.example/1", "s1", true⟩,
       ⟨"w2", "a", "https://y.example/n8n/2", "s2", true⟩,
       ⟨"w3", "a", "https://z.example/3", "s3", true⟩,
       ⟨"w4", "a", "https://q.example/4", "s4", false⟩]
      (fun w => if w.id == "w2" then HttpOutcome.err "timeout of 5000ms exceeded"
                else HttpOutcome.ok 200)
      (fun w => if w.id == "w2" then HttpOutcome.err "timeout of 5000ms exceeded"
                else if w.id == "w4" then HttpOutcome.err "never attempted"
                else HttpOutcome.ok 200)).2.2.2.2 (by decide)⟩

/-- Witness for C4 (amended) at a concrete state of depth 21. -/
theorem c4_queue_full_amended_witness :
    20 < (List.replicate 21 (⟨"x@c.us", "m", 0⟩ : QueueItem)).length ∧
    ((sendMessage ⟨List.replicate 21 ⟨"x@c.us", "m", 0⟩, true, "ready", false⟩
        "9876543210" "hi" 1 true).1 = .queueFull ∧
      (sendMessage ⟨List.replicate 21 ⟨"x@c.us", "m", 0⟩, true, "ready", false⟩
        "9876543210" "hi" 1 true).2.2 = false ∧
      (sendMessage ⟨List.replicate 21 ⟨"x@c.us", "m", 0⟩, true, "ready", false⟩
        "9876543210" "hi" 1 true).2.1 = List.replicate 21 ⟨"x@c.us", "m", 0⟩) :=
  ⟨by decide,
   c4_queue_full_amended ⟨List.replicate 21 ⟨"x@c.us", "m", 0⟩, true, "ready", false⟩
     "9876543210" "hi" 1 true (by decide)⟩

end WebMgr
